import Mathlib

/-!
Verification of the club-penguin voice-chat signaling server (src/index.ts).

The server keeps, in memory:
  * `clients` — a `Map<string, Client>` from socket id to `{clientId : number}`
    (index.ts line 33);
  * the socket.io adapter's rooms — room name to the set of member socket ids
    (in insertion order); on connection each socket is implicitly a member of
    the room named by its own id;
  * a per-connection local variable `roomId : string | null` (line 92).

Each client-issued event handler (`join`, `id`, `leave`, `signal`) is embedded
as a pure function from server state to server state plus a list of observable
effects (messages sent to sockets, and `socket.disconnect()` calls, which are
modelled as a `terminate` effect; the transport-level `disconnect` event that
follows a termination is its own transition, as is `connection`).
-/

namespace ClubPenguinVC

/-- Dynamically-typed JavaScript values as far as the handlers inspect them:
`typeof x === 'string'` / `'number'` checks and truthiness tests. -/
inductive JSValue where
  | null
  | undefined
  | bool (b : Bool)
  | num (n : Int)
  | str (s : String)
  deriving DecidableEq, Repr

/-- JavaScript truthiness of a value (`!x` is the negation of this). -/
def truthy : JSValue → Bool
  | .null => false
  | .undefined => false
  | .bool b => b
  | .num n => n != 0
  | .str s => s != ""

/-- `typeof v === 'string'`. -/
def isStr : JSValue → Bool
  | .str _ => true
  | _ => false

/-- `typeof v === 'number'`. -/
def isNum : JSValue → Bool
  | .num _ => true
  | _ => false

/-- The string carried by a `JSValue.str` (only used after an `isStr` check). -/
def asStr : JSValue → String
  | .str s => s
  | _ => ""

/-- The number carried by a `JSValue.num` (only used after an `isNum` check). -/
def asNum : JSValue → Int
  | .num n => n
  | _ => 0

/-- `Map.get` / adapter lookup on an association list keyed by strings. -/
def mapGet {α : Type} (m : List (String × α)) (k : String) : Option α :=
  match m with
  | [] => none
  | (k0, v) :: rest => if k0 = k then some v else mapGet rest k

/-- `Map.set`: update in place if the key is present, else append (JS `Map`
preserves insertion order). -/
def mapSet {α : Type} (m : List (String × α)) (k : String) (v : α) :
    List (String × α) :=
  match m with
  | [] => [(k, v)]
  | (k0, v0) :: rest =>
      if k0 = k then (k0, v) :: rest else (k0, v0) :: mapSet rest k v

/-- `Map.delete`: drop the entry with the given key. -/
def mapDelete {α : Type} (m : List (String × α)) (k : String) :
    List (String × α) :=
  m.filter (fun kv => kv.1 ≠ k)

/-- Per-connection state held by the server closure: the `roomId` local
variable of index.ts line 92, plus whether `socket.disconnect()` has been
called on this socket (after which the transport delivers no further
client events, only the final `disconnect`). -/
structure Conn where
  roomId : Option String
  closed : Bool
  deriving DecidableEq, Repr

/-- The whole in-memory server state. -/
structure ServerState where
  /-- the `clients` map: socket id ↦ registered `clientId` (line 33). -/
  clients : List (String × Int)
  /-- `io.sockets.adapter.rooms`: room name ↦ member socket ids in join
  order; empty rooms are removed, and each connected socket is a member of
  the room named by its own id. -/
  rooms : List (String × List String)
  /-- live sockets and their per-connection state. -/
  conns : List (String × Conn)
  /-- the global `connectionCount` (line 47). -/
  connectionCount : Int
  deriving DecidableEq, Repr

/-- Members of a room (`Object.keys(io.sockets.adapter.rooms[rid].sockets)`);
an unknown room has no members. -/
def roomMembers (st : ServerState) (rid : String) : List String :=
  (mapGet st.rooms rid).getD []

/-- Add a socket to a room (`socket.join`): no-op if already a member,
else append. -/
def addToRoom (rooms : List (String × List String)) (rid sid : String) :
    List (String × List String) :=
  match mapGet rooms rid with
  | none => mapSet rooms rid [sid]
  | some mems =>
      if mems.contains sid then rooms else mapSet rooms rid (mems ++ [sid])

/-- Remove a socket from a room (`socket.leave`); an emptied room is
dropped from the adapter. -/
def removeFromRoom (rooms : List (String × List String)) (rid sid : String) :
    List (String × List String) :=
  match mapGet rooms rid with
  | none => rooms
  | some mems =>
      if mems.filter (fun x => x ≠ sid) = [] then mapDelete rooms rid
      else mapSet rooms rid (mems.filter (fun x => x ≠ sid))

/-- Remove a socket from every room (adapter `leaveAll` on disconnect). -/
def leaveAllRooms (rooms : List (String × List String)) (sid : String) :
    List (String × List String) :=
  rooms.filterMap (fun rm =>
    let mems2 := rm.2.filter (fun x => x ≠ sid)
    if mems2 = [] then none else some (rm.1, mems2))

/-- The `roomId` local variable of the given connection. -/
def connRoomId (st : ServerState) (sid : String) : Option String :=
  match mapGet st.conns sid with
  | some c => c.roomId
  | none => none

/-- Overwrite the `roomId` local variable of the given connection
(index.ts line 102). -/
def setRoomId (st : ServerState) (sid : String) (r : Option String) :
    ServerState :=
  { st with conns := st.conns.map (fun kc =>
      if kc.1 = sid then (kc.1, { kc.2 with roomId := r }) else kc) }

/-- Messages the server emits to sockets. -/
inductive Msg where
  /-- `'join', socket.id, {clientId: id}` (line 116). -/
  | joinEvt (fromSid : String) (clientId : Int)
  /-- `'setClients', otherClients` (line 119); entries without a `clients`
  record carry `none` (JS `undefined`). -/
  | setClients (others : List (String × Option Int))
  /-- `'setClient', socket.id, client` (line 138). -/
  | setClient (sid : String) (clientId : Int)
  /-- `'signal', {data, from}` (line 156). -/
  | signal (data : JSValue) (fromSid : String)
  deriving DecidableEq, Repr

/-- Observable effects of a handler invocation. -/
inductive Effect where
  /-- deliver a message to the socket with the given id. -/
  | send (toSid : String) (m : Msg)
  /-- `socket.disconnect()`: forcibly terminate the socket. -/
  | terminate (sid : String)
  deriving DecidableEq, Repr

/-- `getRoomId` (index.ts lines 67-69). -/
def getRoomId (hostName server room : String) : String :=
  hostName ++ "-" ++ server ++ "-" ++ room

/-- The `for (let s of socketsInRoom)` loop of the join handler (lines
105-113): returns `none` when some member's registered `clientId` equals the
claimed `id` (spoofing — the handler disconnects and returns), otherwise the
`otherClients` record: every member except the joiner itself, mapped to its
`clients` entry (`none` when absent). -/
def joinLoop (clients : List (String × Int)) (selfId : String) (idArg : Int) :
    List String → Option (List (String × Option Int))
  | [] => some []
  | s :: rest =>
      if mapGet clients s = some idArg then none
      else
        match joinLoop clients selfId idArg rest with
        | none => none
        | some acc =>
            if s = selfId then some acc else some ((s, mapGet clients s) :: acc)

/-- Body of the join handler after argument validation (lines 101-119):
set the `roomId` variable, run the spoofing loop over the room's current
members, and on success join the room, broadcast `join` to the other members
and reply `setClients` to the joiner. -/
def joinOk (st : ServerState) (sid : String) (rid : String) (idn : Int) :
    ServerState × List Effect :=
  let st1 := setRoomId st sid (some rid)
  match joinLoop st1.clients sid idn (roomMembers st1 rid) with
  | none => (st1, [Effect.terminate sid])
  | some others =>
      let st2 := { st1 with rooms := addToRoom st1.rooms rid sid }
      (st2,
        ((roomMembers st2 rid).filter (fun x => x ≠ sid)).map
            (fun r => Effect.send r (Msg.joinEvt sid idn))
          ++ [Effect.send sid (Msg.setClients others)])

/-- The `join` handler (lines 94-120): the three name arguments must be
strings and `id` a number, otherwise the socket is disconnected with no
other action. -/
def joinStep (st : ServerState) (sid : String)
    (hostName serverArg roomArg idArg : JSValue) : ServerState × List Effect :=
  if isStr hostName && isStr serverArg && isStr roomArg && isNum idArg then
    joinOk st sid (getRoomId (asStr hostName) (asStr serverArg) (asStr roomArg))
      (asNum idArg)
  else (st, [Effect.terminate sid])

/-- Successful tail of the `id` handler (lines 134-138): overwrite the
`clients` entry and broadcast `setClient` to the rest of the connection's
current room (`socket.to(roomId).broadcast` reaches the members of that room
other than the sender; with `roomId` still `null` no room is addressed). -/
def idCommit (st : ServerState) (sid : String) (cid : Int) :
    ServerState × List Effect :=
  let st2 := { st with clients := mapSet st.clients sid cid }
  match connRoomId st sid with
  | none => (st2, [])
  | some rid =>
      (st2,
        ((roomMembers st2 rid).filter (fun x => x ≠ sid)).map
          (fun x => Effect.send x (Msg.setClient sid cid)))

/-- The `id` handler (lines 122-139): a non-number argument or an attempt to
change an already-registered `clientId` disconnects the socket with no
mutation; otherwise the entry is (re)written and broadcast. -/
def idStep (st : ServerState) (sid : String) (cidArg : JSValue) :
    ServerState × List Effect :=
  if isNum cidArg then
    let cid := asNum cidArg
    match mapGet st.clients sid with
    | some c => if c ≠ cid then (st, [Effect.terminate sid]) else idCommit st sid cid
    | none => idCommit st sid cid
  else (st, [Effect.terminate sid])

/-- The `leave` handler (lines 142-147): when the `roomId` variable is set
(it always holds a nonempty derived room id when non-null), leave that room
and delete the socket's `clients` entry; the `roomId` variable itself is NOT
reset. With no room set, nothing happens. -/
def leaveStep (st : ServerState) (sid : String) : ServerState × List Effect :=
  match connRoomId st sid with
  | none => (st, [])
  | some rid =>
      ({ st with
          rooms := removeFromRoom st.rooms rid sid,
          clients := mapDelete st.clients sid }, [])

/-- The payload of a `signal` event, as far as the handler inspects it: a
record (so `typeof signal === 'object'` holds) with `data` and `to` fields. -/
structure SignalPayload where
  data : JSValue
  toId : JSValue
  deriving DecidableEq, Repr

/-- The `signal` handler (lines 149-160): falsy `data`, falsy `to` or a
non-string `to` disconnects the sender; otherwise `io.to(to)` delivers
`{data, from: sender}` to every member of the room named `to` (for a live
socket id, its implicit self room). -/
def signalStep (st : ServerState) (sid : String) (pl : SignalPayload) :
    ServerState × List Effect :=
  if truthy pl.data && truthy pl.toId && isStr pl.toId then
    (st, (roomMembers st (asStr pl.toId)).map
      (fun r => Effect.send r (Msg.signal pl.data sid)))
  else (st, [Effect.terminate sid])

/-- Transport-level connection establishment: create the per-connection
state, put the socket in its implicit self room, bump the counter
(lines 89-92). -/
def connectStep (st : ServerState) (sid : String) : ServerState :=
  { st with
      conns := st.conns ++ [(sid, ⟨none, false⟩)],
      rooms := addToRoom st.rooms sid sid,
      connectionCount := st.connectionCount + 1 }

/-- The transport-level `disconnect` event (lines 162-166) together with the
adapter cleanup: leave all rooms, delete the `clients` entry, drop the
connection, decrement the counter. -/
def disconnectStep (st : ServerState) (sid : String) : ServerState :=
  { st with
      rooms := leaveAllRooms st.rooms sid,
      clients := mapDelete st.clients sid,
      conns := st.conns.filter (fun kc => kc.1 ≠ sid),
      connectionCount := st.connectionCount - 1 }

/-- Events driving the server: transport connect/disconnect plus the four
client commands (the identify command is named `id` on the wire). -/
inductive Event where
  | connect (sid : String)
  | join (sid : String) (hostName serverArg roomArg idArg : JSValue)
  | identify (sid : String) (cidArg : JSValue)
  | leave (sid : String)
  | signal (sid : String) (pl : SignalPayload)
  | disconnect (sid : String)
  deriving DecidableEq, Repr

/-- A socket is live when it is connected and not forcibly terminated. -/
def isLive (st : ServerState) (sid : String) : Bool :=
  match mapGet st.conns sid with
  | some c => !c.closed
  | none => false

/-- Mark a socket closed once a handler has called `socket.disconnect()`
on it; the transport then delivers no further client events from it. -/
def setClosed (st : ServerState) (sid : String) : ServerState :=
  { st with conns := st.conns.map (fun kc =>
      if kc.1 = sid then (kc.1, { kc.2 with closed := true }) else kc) }

/-- Commit a handler result: keep the mutated state and record a forced
termination of the acting socket when the handler emitted one. -/
def commitHandler (sid : String) (r : ServerState × List Effect) :
    ServerState :=
  if Effect.terminate sid ∈ r.2 then setClosed r.1 sid else r.1

/-- One transition of the server: client events are delivered only for live
sockets, connects only for unknown ids, disconnects only for known ids. -/
def applyEvent (st : ServerState) (ev : Event) : ServerState :=
  match ev with
  | .connect sid => if mapGet st.conns sid = none then connectStep st sid else st
  | .disconnect sid =>
      if mapGet st.conns sid = none then st else disconnectStep st sid
  | .join sid h sv rm i =>
      if isLive st sid then commitHandler sid (joinStep st sid h sv rm i) else st
  | .identify sid c =>
      if isLive st sid then commitHandler sid (idStep st sid c) else st
  | .leave sid =>
      if isLive st sid then commitHandler sid (leaveStep st sid) else st
  | .signal sid pl =>
      if isLive st sid then commitHandler sid (signalStep st sid pl) else st

/-- The state at process start: no clients, no rooms, no connections. -/
def initState : ServerState := ⟨[], [], [], 0⟩

/-- Run a trace of events from the initial state. -/
def runTrace (evs : List Event) : ServerState :=
  evs.foldl applyEvent initState

/-! ### The version gate (index.ts lines 10 and 71-87) -/

/-- `const supportedVersions = new Set(['1.0.0'])` (line 10). -/
def supportedVersions : List String := ["1.0.0"]

/-- Match a literal sequence of characters at the head of the input,
returning the remainder on success. -/
def dropLit : List Char → List Char → Option (List Char)
  | [], cs => some cs
  | _ :: _, [] => none
  | p :: ps, c :: cs => if c = p then dropLit ps cs else none

/-- `\w` of the gate's regular expression: `[A-Za-z0-9_]`. -/
def isWordChar (c : Char) : Bool :=
  c.isAlpha || c.isDigit || c = '_'

/-- The regular expression of line 73,
`^PenguinChat\/(\d+\.\d+\.\d+) \((\w+)\)$`, as an executable matcher:
returns the first capture (the `<major>.<minor>.<patch>` version) when the
user-agent string matches, and `none` otherwise. -/
def parseUA (ua : String) : Option String :=
  match dropLit "PenguinChat/".toList ua.toList with
  | none => none
  | some r0 =>
    let d1 := r0.takeWhile Char.isDigit
    let r1 := r0.dropWhile Char.isDigit
    if d1.isEmpty then none else
    match r1 with
    | '.' :: r2 =>
      let d2 := r2.takeWhile Char.isDigit
      let r3 := r2.dropWhile Char.isDigit
      if d2.isEmpty then none else
      match r3 with
      | '.' :: r4 =>
        let d3 := r4.takeWhile Char.isDigit
        let r5 := r4.dropWhile Char.isDigit
        if d3.isEmpty then none else
        match r5 with
        | ' ' :: '(' :: r6 =>
          let w := r6.takeWhile isWordChar
          let r7 := r6.dropWhile isWordChar
          if w.isEmpty then none else
          match r7 with
          | [')'] => some (String.mk (d1 ++ '.' :: d2 ++ '.' :: d3))
          | _ => none
        | _ => none
      | _ => none
    | _ => none

/-- The message of the rejection error (line 75): the supported versions are
embedded in the text via `Array.from(supportedVersions).join()`. -/
def rejectMessage : String :=
  "The voice server does not support your version of PenguinChat.\nSupported versions: "
    ++ String.intercalate "," supportedVersions

/-- `error.data` of the rejection (line 75): a JS object with a single
`message` property. -/
def rejectData : List (String × JSValue) :=
  [("message", JSValue.str rejectMessage)]

/-- The `io.use` middleware (lines 71-87): reject (`some` payload) when the
user-agent does not match the pattern or the extracted version is not
supported, accept (`none`) otherwise. -/
def versionGate (ua : String) : Option (List (String × JSValue)) :=
  match parseUA ua with
  | none => some rejectData
  | some v => if supportedVersions.contains v then none else some rejectData

/-! ### Helper lemmas -/

/-- Truthiness of a string value is non-emptiness. -/
@[simp] theorem truthy_str (s : String) : truthy (JSValue.str s) = (s != "") :=
  rfl

/-- `setRoomId` touches only the per-connection variables. -/
@[simp] theorem setRoomId_clients (st : ServerState) (sid : String)
    (r : Option String) : (setRoomId st sid r).clients = st.clients := rfl

/-- `setRoomId` touches only the per-connection variables. -/
@[simp] theorem setRoomId_rooms (st : ServerState) (sid : String)
    (r : Option String) : (setRoomId st sid r).rooms = st.rooms := rfl

/-- Room membership is unaffected by the `roomId` variable write. -/
@[simp] theorem roomMembers_setRoomId (st : ServerState) (sid : String)
    (r : Option String) (rid : String) :
    roomMembers (setRoomId st sid r) rid = roomMembers st rid := rfl

/-- `mapSet` makes the key present with the written value. -/
theorem mapGet_mapSet_self {α : Type} (m : List (String × α)) (k : String)
    (v : α) : mapGet (mapSet m k v) k = some v := by
  induction m with
  | nil => simp [mapSet, mapGet]
  | cons kv rest ih =>
    obtain ⟨k0, v0⟩ := kv
    by_cases hk : k0 = k
    · subst hk; simp [mapSet, mapGet]
    · simp [mapSet, mapGet, hk, ih]

/-- `mapDelete` removes the key. -/
theorem mapGet_mapDelete_self {α : Type} (m : List (String × α)) (k : String) :
    mapGet (mapDelete m k) k = none := by
  induction m with
  | nil => rfl
  | cons kv rest ih =>
    obtain ⟨k0, v0⟩ := kv
    by_cases hk : k0 = k
    · simpa [mapDelete, hk] using ih
    · simpa [mapDelete, mapGet, hk] using ih

/-- If some room member's registered `clientId` equals the claimed id, the
join-handler loop reports spoofing. -/
theorem joinLoop_none (clients : List (String × Int)) (selfId : String)
    (idArg : Int) (mems : List String) (m : String) (hm : m ∈ mems)
    (hc : mapGet clients m = some idArg) :
    joinLoop clients selfId idArg mems = none := by
  induction mems with
  | nil => exact absurd hm (List.not_mem_nil m)
  | cons a rest ih =>
    rcases List.mem_cons.mp hm with rfl | hm2
    · simp [joinLoop, hc]
    · by_cases ha : mapGet clients a = some idArg
      · simp [joinLoop, ha]
      · simp [joinLoop, ha, ih hm2]

/-- If no room member's registered `clientId` equals the claimed id, the
join-handler loop succeeds. -/
theorem joinLoop_isSome (clients : List (String × Int)) (selfId : String)
    (idArg : Int) (mems : List String)
    (h : ∀ m ∈ mems, mapGet clients m ≠ some idArg) :
    joinLoop clients selfId idArg mems ≠ none := by
  induction mems with
  | nil => simp [joinLoop]
  | cons a rest ih =>
    have ha : mapGet clients a ≠ some idArg := h a (List.mem_cons_self a rest)
    have hr := ih (fun m hm => h m (List.mem_cons_of_mem a hm))
    cases hjl : joinLoop clients selfId idArg rest with
    | none => exact absurd hjl hr
    | some acc =>
      simp [joinLoop, ha, hjl]
      split <;> simp

/-- `addToRoom` makes the socket a member. -/
theorem mem_addToRoom (rooms : List (String × List String)) (rid sid : String) :
    sid ∈ (mapGet (addToRoom rooms rid sid) rid).getD [] := by
  cases hg : mapGet rooms rid with
  | none =>
    simp only [addToRoom, hg]
    simp [mapGet_mapSet_self]
  | some mems =>
    by_cases hc : mems.contains sid
    · simp only [addToRoom, hg]
      rw [if_pos hc, hg]
      exact List.mem_of_elem_eq_true hc
    · simp only [addToRoom, hg]
      rw [if_neg hc, mapGet_mapSet_self]
      simp

/-- `removeFromRoom` removes the socket's membership. -/
theorem not_mem_removeFromRoom (rooms : List (String × List String))
    (rid sid : String) :
    sid ∉ (mapGet (removeFromRoom rooms rid sid) rid).getD [] := by
  cases hg : mapGet rooms rid with
  | none =>
    simp only [removeFromRoom, hg]
    simp [hg]
  | some mems =>
    by_cases he : mems.filter (fun x => x ≠ sid) = []
    · simp only [removeFromRoom, hg]
      rw [if_pos he, mapGet_mapDelete_self]
      simp
    · simp only [removeFromRoom, hg]
      rw [if_neg he, mapGet_mapSet_self]
      simp

/-! ### Claim C1 -/

/-- The room uniqueness invariant of claim C1: no two distinct live member
connections of any room hold the same registered `clientId`. -/
def RoomIdsUnique (st : ServerState) : Prop :=
  ∀ rid m1 m2, m1 ∈ roomMembers st rid → m2 ∈ roomMembers st rid →
    isLive st m1 = true → isLive st m2 = true → m1 ≠ m2 →
    ∀ c : Int, mapGet st.clients m1 = some c → mapGet st.clients m2 ≠ some c

/-- A trace on which the invariant fails: neither join is blocked, because
neither joiner is registered at join time, and each later identify consults
only the connection's own (absent) registration, never the other members. -/
def dupTrace : List Event :=
  [Event.connect "A", Event.connect "B",
   Event.join "A" (JSValue.str "h") (JSValue.str "s") (JSValue.str "r")
     (JSValue.num 5),
   Event.join "B" (JSValue.str "h") (JSValue.str "s") (JSValue.str "r")
     (JSValue.num 5),
   Event.identify "A" (JSValue.num 5), Event.identify "B" (JSValue.num 5)]

/-- Claim C1 is false of the code: after `dupTrace`, the distinct live
connections "A" and "B" are both members of room "h-s-r" and both hold
registered `clientId` 5, so the claimed invariant does not hold in every
reachable state. -/
theorem c1_counterexample : ¬ RoomIdsUnique (runTrace dupTrace) := by
  intro h
  exact h "h-s-r" "A" "B" (by decide) (by decide) (by decide) (by decide)
    (by decide) 5 (by decide) (by decide)

/-- Claim C1 (amended): the uniqueness of registered `clientId`s within a
room is not an invariant of reachable states (identify never checks the other
members, and join compares their registrations only against the claimed id).
What the join handler does guarantee is: whenever a join commits — the
joining socket is not terminated — no existing member of the target room held
a registered `clientId` equal to the id claimed in that join. -/
theorem c1_join_commit_no_duplicate (st : ServerState) (sid h sv rm : String)
    (idn : Int)
    (hok : Effect.terminate sid ∉
      (joinStep st sid (JSValue.str h) (JSValue.str sv) (JSValue.str rm)
        (JSValue.num idn)).2) :
    ∀ m ∈ roomMembers st (getRoomId h sv rm),
      mapGet st.clients m ≠ some idn := by
  intro m hm hreg
  apply hok
  have hnone : joinLoop st.clients sid idn
      (roomMembers st (getRoomId h sv rm)) = none :=
    joinLoop_none st.clients sid idn _ m hm hreg
  simp [joinStep, isStr, isNum, asStr, asNum, joinOk, hnone]

/-- Witness for the amended claim C1: "B" joins room "h-s-r" (sole member
"A", registered id 5) claiming id 6 and is not terminated; the theorem yields
that "A"'s registration differs from 6. -/
theorem c1_witness :
    mapGet (runTrace [Event.connect "A", Event.connect "B",
      Event.join "A" (JSValue.str "h") (JSValue.str "s") (JSValue.str "r")
        (JSValue.num 5),
      Event.identify "A" (JSValue.num 5)]).clients "A" ≠ some 6 :=
  c1_join_commit_no_duplicate
    (runTrace [Event.connect "A", Event.connect "B",
      Event.join "A" (JSValue.str "h") (JSValue.str "s") (JSValue.str "r")
        (JSValue.num 5),
      Event.identify "A" (JSValue.num 5)])
    "B" "h" "s" "r" 6 (by decide) "A" (by decide)

/-! ### Claim C2 -/

/-- Claim C2: a join claiming an id equal to some existing member's
registered `clientId` only terminates the joining socket — the handler's
effects are exactly the forced disconnect (so no `join` broadcast reaches
anyone), and neither room membership nor the registry changes. -/
theorem c2_join_spoof_rejected (st : ServerState) (sid h sv rm : String)
    (idn : Int) (m : String)
    (hmem : m ∈ roomMembers st (getRoomId h sv rm))
    (hreg : mapGet st.clients m = some idn) :
    (joinStep st sid (JSValue.str h) (JSValue.str sv) (JSValue.str rm)
        (JSValue.num idn)).2 = [Effect.terminate sid]
    ∧ (joinStep st sid (JSValue.str h) (JSValue.str sv) (JSValue.str rm)
        (JSValue.num idn)).1.rooms = st.rooms
    ∧ (joinStep st sid (JSValue.str h) (JSValue.str sv) (JSValue.str rm)
        (JSValue.num idn)).1.clients = st.clients := by
  have hnone : joinLoop st.clients sid idn
      (roomMembers st (getRoomId h sv rm)) = none :=
    joinLoop_none st.clients sid idn _ m hmem hreg
  refine ⟨?_, ?_, ?_⟩ <;>
    simp [joinStep, isStr, isNum, asStr, asNum, joinOk, hnone]

/-- State for the C2 witness: "A" is in room "h-s-r" with registered id 5,
"C" is a connected bystander. -/
def c2state : ServerState :=
  runTrace [Event.connect "A", Event.connect "C",
    Event.join "A" (JSValue.str "h") (JSValue.str "s") (JSValue.str "r")
      (JSValue.num 5),
    Event.identify "A" (JSValue.num 5)]

/-- Witness for claim C2: "C" joins the same room claiming "A"'s registered
id 5 and is terminated with no broadcast and no state change. -/
theorem c2_witness :
    (joinStep c2state "C" (JSValue.str "h") (JSValue.str "s")
        (JSValue.str "r") (JSValue.num 5)).2 = [Effect.terminate "C"]
    ∧ (joinStep c2state "C" (JSValue.str "h") (JSValue.str "s")
        (JSValue.str "r") (JSValue.num 5)).1.rooms = c2state.rooms
    ∧ (joinStep c2state "C" (JSValue.str "h") (JSValue.str "s")
        (JSValue.str "r") (JSValue.num 5)).1.clients = c2state.clients :=
  c2_join_spoof_rejected c2state "C" "h" "s" "r" 5 "A" (by decide) (by decide)

/-! ### Claim C3 -/

/-- Claim C3: an identify carrying a number different from the connection's
already-registered `clientId` terminates the connection and changes nothing —
the handler returns the state untouched with the forced disconnect as its
only effect (in particular no `setClient` broadcast). -/
theorem c3_identify_change_rejected (st : ServerState) (sid : String)
    (c n : Int) (hreg : mapGet st.clients sid = some c) (hne : c ≠ n) :
    idStep st sid (JSValue.num n) = (st, [Effect.terminate sid]) := by
  simp [idStep, isNum, asNum, hreg, hne]

/-- Witness for claim C3: "A" registered id 5, then identifies as 7 and is
terminated with no mutation. -/
theorem c3_witness :
    idStep (runTrace [Event.connect "A", Event.identify "A" (JSValue.num 5)])
        "A" (JSValue.num 7)
      = (runTrace [Event.connect "A", Event.identify "A" (JSValue.num 5)],
         [Effect.terminate "A"]) :=
  c3_identify_change_rejected
    (runTrace [Event.connect "A", Event.identify "A" (JSValue.num 5)])
    "A" 5 7 (by decide) (by decide)

/-! ### Claim C4 -/

/-- State for claim C4: "A" is a member of room "h-s-r" with registered
`clientId` 5. -/
def c4state : ServerState :=
  runTrace [Event.connect "A",
    Event.join "A" (JSValue.str "h") (JSValue.str "s") (JSValue.str "r")
      (JSValue.num 5),
    Event.identify "A" (JSValue.num 5)]

/-- Claim C4 is false of the code: the leave handler executes
`clients.delete(socket.id)` (index.ts line 145), so "A"'s registry entry,
present before the leave, is gone right after it — it does not survive until
the disconnect event. -/
theorem c4_counterexample :
    mapGet c4state.clients "A" = some 5
    ∧ mapGet (leaveStep c4state "A").1.clients "A" = none :=
  ⟨by decide, by decide⟩

/-- Claim C4 (amended): a leave by a connection whose `roomId` is set removes
it from that room's membership AND deletes its ConnectionRegistry entry; the
registry entry does not persist until disconnect. -/
theorem c4_leave_deletes_registry (st : ServerState) (sid rid : String)
    (hr : connRoomId st sid = some rid) :
    (leaveStep st sid).1.rooms = removeFromRoom st.rooms rid sid
    ∧ mapGet (leaveStep st sid).1.clients sid = none
    ∧ sid ∉ roomMembers (leaveStep st sid).1 rid := by
  refine ⟨?_, ?_, ?_⟩ <;>
    simp [leaveStep, hr, roomMembers, mapGet_mapDelete_self,
      not_mem_removeFromRoom]

/-- Witness for the amended claim C4 at the concrete state `c4state`. -/
theorem c4_witness :
    (leaveStep c4state "A").1.rooms = removeFromRoom c4state.rooms "h-s-r" "A"
    ∧ mapGet (leaveStep c4state "A").1.clients "A" = none
    ∧ "A" ∉ roomMembers (leaveStep c4state "A").1 "h-s-r" :=
  c4_leave_deletes_registry c4state "A" "h-s-r" (by decide)

/-! ### Claim C5 -/

/-- State for claim C5: "A" and "B" are members of room "h-s-r"; neither has
identified yet. -/
def c5state : ServerState :=
  runTrace [Event.connect "A", Event.connect "B",
    Event.join "A" (JSValue.str "h") (JSValue.str "s") (JSValue.str "r")
      (JSValue.num 5),
    Event.join "B" (JSValue.str "h") (JSValue.str "s") (JSValue.str "r")
      (JSValue.num 6)]

/-- Claim C5 is false of the code: the leave handler never resets the
`roomId` variable (index.ts lines 142-147), so after "A" leaves, its
`roomId` still names "h-s-r", and a subsequent identify broadcasts
`setClient` to the remaining member "B" of the room "A" left — not to no
room, as the claim states. -/
theorem c5_counterexample :
    connRoomId (leaveStep c5state "A").1 "A" = some "h-s-r"
    ∧ (idStep (leaveStep c5state "A").1 "A" (JSValue.num 5)).2
        = [Effect.send "B" (Msg.setClient "A" 5)] :=
  ⟨by decide, by decide⟩

/-- Claim C5 (amended): a leave with no current room is a no-op, and a leave
with a current room keeps the `roomId` variable pointing at the left room
(it is not cleared, so a later identify still addresses that room). -/
theorem c5_leave_keeps_roomid (st : ServerState) (sid : String) :
    (connRoomId st sid = none → leaveStep st sid = (st, []))
    ∧ ∀ rid, connRoomId st sid = some rid →
        connRoomId (leaveStep st sid).1 sid = some rid := by
  constructor
  · intro h
    simp [leaveStep, h]
  · intro rid h
    simp only [leaveStep, h]
    exact h

/-- Witness for the amended claim C5: a leave by the roomless "A" is a
no-op, and a leave by "A" from `c5state` keeps its `roomId` at "h-s-r". -/
theorem c5_witness :
    leaveStep (runTrace [Event.connect "A"]) "A"
      = (runTrace [Event.connect "A"], [])
    ∧ connRoomId (leaveStep c5state "A").1 "A" = some "h-s-r" :=
  ⟨(c5_leave_keeps_roomid (runTrace [Event.connect "A"]) "A").1 (by decide),
   (c5_leave_keeps_roomid c5state "A").2 "h-s-r" (by decide)⟩

/-! ### Claim C6 -/

/-- Claim C6: a well-formed signal (truthy `data`, non-empty string `to`)
whose destination is a live connection — the room named by the destination id
is exactly that connection's implicit self room — is delivered as
`{data, from: sender}` to exactly that destination, with no state change and
the sender left alone; when `to` names no room at all (no live connection,
nothing joined under that name) nothing is delivered and the sender is left
alone, with no error. -/
theorem c6_signal_relay (st : ServerState) (sid : String) (d : JSValue)
    (dst : String) (hd : truthy d = true) (hdst : dst ≠ "") :
    (roomMembers st dst = [dst] →
      signalStep st sid ⟨d, JSValue.str dst⟩
        = (st, [Effect.send dst (Msg.signal d sid)]))
    ∧ (roomMembers st dst = [] →
      signalStep st sid ⟨d, JSValue.str dst⟩ = (st, [])) := by
  constructor <;> intro h <;>
    simp [signalStep, isStr, asStr, hd, hdst, h]

/-- Witness for claim C6: with live connections "A" and "B", a signal from
"A" to "B" reaches exactly "B", and a signal from "A" to the unknown id "Z"
is dropped with no effect at all. -/
theorem c6_witness :
    signalStep (runTrace [Event.connect "A", Event.connect "B"]) "A"
        ⟨JSValue.str "x", JSValue.str "B"⟩
      = (runTrace [Event.connect "A", Event.connect "B"],
         [Effect.send "B" (Msg.signal (JSValue.str "x") "A")])
    ∧ signalStep (runTrace [Event.connect "A", Event.connect "B"]) "A"
        ⟨JSValue.str "x", JSValue.str "Z"⟩
      = (runTrace [Event.connect "A", Event.connect "B"], []) :=
  ⟨(c6_signal_relay (runTrace [Event.connect "A", Event.connect "B"]) "A"
      (JSValue.str "x") "B" (by decide) (by decide)).1 (by decide),
   (c6_signal_relay (runTrace [Event.connect "A", Event.connect "B"]) "A"
      (JSValue.str "x") "Z" (by decide) (by decide)).2 (by decide)⟩

/-! ### Claim C7 -/

/-- Claim C7 is false of the code: a rejected connection (here one claiming
the unsupported version  2.0.0) receives an error payload that has no
`supportedVersions` property at all — the supported list is embedded in the
`message` text instead (index.ts line 75). -/
theorem c7_counterexample :
    versionGate "PenguinChat/2.0.0 (win)" = some rejectData
    ∧ mapGet rejectData "supportedVersions" = none
    ∧ mapGet rejectData "message" = some (JSValue.str rejectMessage) :=
  ⟨by decide, by decide, by decide⟩

/-- Claim C7 (amended): every connection attempt whose user-agent fails the
pattern, or declares a version outside the supported set, is rejected with a
structured error payload whose single field is a `message` string embedding
the supported-version list; there is no separate `supportedVersions` field. -/
theorem c7_gate_rejects (ua : String)
    (h : parseUA ua = none
      ∨ ∃ v, parseUA ua = some v ∧ supportedVersions.contains v = false) :
    versionGate ua = some rejectData
    ∧ mapGet rejectData "message" = some (JSValue.str rejectMessage)
    ∧ mapGet rejectData "supportedVersions" = none := by
  refine ⟨?_, by decide, by decide⟩
  rcases h with h | ⟨v, hv, hc⟩
  · simp [versionGate, h]
  · have hc2 : v ∉ supportedVersions := by simpa using hc
    simp [versionGate, hv, hc2]

/-- Witness for the amended claim C7 at the unsupported version 9.9.9. -/
theorem c7_witness :
    versionGate "PenguinChat/9.9.9 (mac)" = some rejectData
    ∧ mapGet rejectData "message" = some (JSValue.str rejectMessage)
    ∧ mapGet rejectData "supportedVersions" = none :=
  c7_gate_rejects "PenguinChat/9.9.9 (mac)"
    (Or.inr ⟨"9.9.9", by decide, by decide⟩)

/-! ### Claim C8 -/

/-- Claim C8: a join — successful or not — never writes to the `clients`
registry, so only the identify handler creates registry entries; and when no
member of the target room has a registry entry (they joined but never
identified), the join-time spoofing check sees nothing: the joiner is added
to the room and not terminated, whatever id it claims. -/
theorem c8_join_no_registry_write (st : ServerState) (sid h sv rm : String)
    (idn : Int) :
    (joinStep st sid (JSValue.str h) (JSValue.str sv) (JSValue.str rm)
        (JSValue.num idn)).1.clients = st.clients
    ∧ ((∀ m ∈ roomMembers st (getRoomId h sv rm),
          mapGet st.clients m = none) →
        sid ∈ roomMembers
          (joinStep st sid (JSValue.str h) (JSValue.str sv) (JSValue.str rm)
            (JSValue.num idn)).1 (getRoomId h sv rm)
        ∧ Effect.terminate sid ∉
          (joinStep st sid (JSValue.str h) (JSValue.str sv) (JSValue.str rm)
            (JSValue.num idn)).2) := by
  constructor
  · cases hjl : joinLoop st.clients sid idn
        (roomMembers st (getRoomId h sv rm)) with
    | none => simp [joinStep, isStr, isNum, asStr, asNum, joinOk, hjl]
    | some acc => simp [joinStep, isStr, isNum, asStr, asNum, joinOk, hjl]
  · intro hall
    have hne : joinLoop st.clients sid idn
        (roomMembers st (getRoomId h sv rm)) ≠ none :=
      joinLoop_isSome st.clients sid idn _ (fun m hm => by simp [hall m hm])
    cases hjl : joinLoop st.clients sid idn
        (roomMembers st (getRoomId h sv rm)) with
    | none => exact absurd hjl hne
    | some acc =>
      constructor
      · have hmem2 := mem_addToRoom st.rooms (getRoomId h sv rm) sid
        simp [joinStep, isStr, isNum, asStr, asNum, joinOk, hjl]
        simpa [roomMembers] using hmem2
      · simp [joinStep, isStr, isNum, asStr, asNum, joinOk, hjl]

/-- State for the C8 witness: "A" joined room "h-s-r" claiming id 5 but
never identified, so the registry is empty. -/
def c8state : ServerState :=
  runTrace [Event.connect "A", Event.connect "B",
    Event.join "A" (JSValue.str "h") (JSValue.str "s") (JSValue.str "r")
      (JSValue.num 5)]

/-- Witness for claim C8: "B" joins the same room claiming the very id 5
that "A" claimed on join; since "A" never identified, "B" is admitted — the
unidentified member is invisible to the spoofing check — and the registry is
untouched. -/
theorem c8_witness :
    (joinStep c8state "B" (JSValue.str "h") (JSValue.str "s")
        (JSValue.str "r") (JSValue.num 5)).1.clients = c8state.clients
    ∧ ("B" ∈ roomMembers
        (joinStep c8state "B" (JSValue.str "h") (JSValue.str "s")
          (JSValue.str "r") (JSValue.num 5)).1 (getRoomId "h" "s" "r")
      ∧ Effect.terminate "B" ∉
        (joinStep c8state "B" (JSValue.str "h") (JSValue.str "s")
          (JSValue.str "r") (JSValue.num 5)).2) :=
  ⟨(c8_join_no_registry_write c8state "B" "h" "s" "r" 5).1,
   (c8_join_no_registry_write c8state "B" "h" "s" "r" 5).2 (by decide)⟩

/-! ### Claim C9 -/

/-- Claim C9: the spoofing loop runs over every current member of the room,
the joining socket included — a connection that is already a member of the
room and is registered with `clientId` c is forcibly terminated when it sends
a new join for the same room claiming its own id c. -/
theorem c9_rejoin_own_id_terminated (st : ServerState) (sid h sv rm : String)
    (c : Int) (hmem : sid ∈ roomMembers st (getRoomId h sv rm))
    (hreg : mapGet st.clients sid = some c) :
    (joinStep st sid (JSValue.str h) (JSValue.str sv) (JSValue.str rm)
        (JSValue.num c)).2 = [Effect.terminate sid] := by
  have hnone : joinLoop st.clients sid c
      (roomMembers st (getRoomId h sv rm)) = none :=
    joinLoop_none st.clients sid c _ sid hmem hreg
  simp [joinStep, isStr, isNum, asStr, asNum, joinOk, hnone]

/-- Witness for claim C9: "A", a member of "h-s-r" registered with id 5,
rejoins the same room claiming 5 and is terminated. -/
theorem c9_witness :
    (joinStep c4state "A" (JSValue.str "h") (JSValue.str "s")
        (JSValue.str "r") (JSValue.num 5)).2 = [Effect.terminate "A"] :=
  c9_rejoin_own_id_terminated c4state "A" "h" "s" "r" 5 (by decide)
    (by decide)

/-! ### Claim C10 -/

/-- Claim C10: the signal handler tests `data` by truthiness, so any payload
whose `data` is falsy — the empty string, the number 0, `false`, `null` —
terminates the sender with no relay, even when the payload is a structured
record with a string `to` field. -/
theorem c10_falsy_data_terminates (st : ServerState) (sid : String)
    (pl : SignalPayload) (hd : truthy pl.data = false) :
    signalStep st sid pl = (st, [Effect.terminate sid]) := by
  simp [signalStep, hd]

/-- Witness for claim C10 at four concrete falsy `data` values, each with a
well-formed string destination. -/
theorem c10_witness :
    signalStep initState "A" ⟨JSValue.str "", JSValue.str "B"⟩
      = (initState, [Effect.terminate "A"])
    ∧ signalStep initState "A" ⟨JSValue.num 0, JSValue.str "B"⟩
      = (initState, [Effect.terminate "A"])
    ∧ signalStep initState "A" ⟨JSValue.bool false, JSValue.str "B"⟩
      = (initState, [Effect.terminate "A"])
    ∧ signalStep initState "A" ⟨JSValue.null, JSValue.str "B"⟩
      = (initState, [Effect.terminate "A"]) :=
  ⟨c10_falsy_data_terminates initState "A" ⟨JSValue.str "", JSValue.str "B"⟩
      (by decide),
   c10_falsy_data_terminates initState "A" ⟨JSValue.num 0, JSValue.str "B"⟩
      (by decide),
   c10_falsy_data_terminates initState "A"
      ⟨JSValue.bool false, JSValue.str "B"⟩ (by decide),
   c10_falsy_data_terminates initState "A" ⟨JSValue.null, JSValue.str "B"⟩
      (by decide)⟩

end ClubPenguinVC
